import Mathlib

/-!
Shallow embedding of `scripts/init-dynamodb-local.py`.

The script is a linear sequence of module-level statements: a
guarded import of boto3 (with a pip-install fallback on `ImportError`),
construction of a DynamoDB client, and a try/except region that creates
the table `rag-document-locks` and then enables TTL on it.

We model one run as a function from an environment (the outcomes of the
external calls: the initial import, the pip install, the client
constructor, `create_table`, and `update_time_to_live`) to the list of
observable actions the run performs together with its final process
status.  An unhandled Python exception is modelled as the distinguished
status `ExitStatus.uncaught`, as opposed to `ExitStatus.code n` which
covers both `sys.exit(n)` and falling off the end of the module
(exit status 0).

String literals are reproduced from the script with the single-quote
characters elided, and the long copy-pasteable `python -c` hint lines
are abbreviated; neither affects any property proved below.
-/

/-- One element of the `KeySchema` argument of `create_table`. -/
structure KeySchemaElement where
  attributeName : String
  keyType : String
deriving DecidableEq, Repr

/-- One element of the `AttributeDefinitions` argument of `create_table`. -/
structure AttributeDefinition where
  attributeName : String
  attributeType : String
deriving DecidableEq, Repr

/-- The full argument record of the `create_table` call. -/
structure CreateTableRequest where
  tableName : String
  keySchema : List KeySchemaElement
  attributeDefinitions : List AttributeDefinition
  billingMode : String
deriving DecidableEq, Repr

/-- The `TimeToLiveSpecification` argument of `update_time_to_live`. -/
structure TimeToLiveSpecification where
  enabled : Bool
  attributeName : String
deriving DecidableEq, Repr

/-- The full argument record of the `update_time_to_live` call. -/
structure UpdateTTLRequest where
  tableName : String
  timeToLiveSpecification : TimeToLiveSpecification
deriving DecidableEq, Repr

/-- The fields of the `create_table` response that the script reads
(`response[TableDescription][TableArn]` and `[TableStatus]`). -/
structure TableDescription where
  tableArn : String
  tableStatus : String
deriving DecidableEq, Repr

/-- Outcome of the `create_table` call: a successful response carrying a
table description, a botocore `ClientError` carrying the error code
`e.response[Error][Code]` and its message, or any other exception. -/
inductive CreateResult where
  | ok (desc : TableDescription)
  | clientError (code : String) (msg : String)
  | otherError (msg : String)
deriving DecidableEq, Repr

/-- Outcome of the `update_time_to_live` call. -/
inductive TTLResult where
  | ok
  | clientError (code : String) (msg : String)
  | otherError (msg : String)
deriving DecidableEq, Repr

/-- Observable actions of a run: the import attempts, the pip install,
the client construction, the lines printed to stdout, and the database
requests issued.  `deleteTable` is in the vocabulary so that we can
state that the script never issues it. -/
inductive Act where
  | importAttempt
  | pipInstall
  | clientConstruct
  | print (line : String)
  | createTable (req : CreateTableRequest)
  | updateTTL (req : UpdateTTLRequest)
  | deleteTable (tableName : String)
deriving DecidableEq, Repr

/-- Final status of the process: `code n` for `sys.exit(n)` or normal
termination (`code 0`), `uncaught msg` for an exception that escapes
every handler and terminates the process through the runtime default. -/
inductive ExitStatus where
  | code (n : Nat)
  | uncaught (msg : String)
deriving DecidableEq, Repr

/-- Environment of one run: the outcomes of all external interactions.
`boto3Installed` is whether the initial `import boto3` succeeds;
`installSucceeds` is whether `subprocess.check_call([... pip install
boto3])` succeeds; `reimportOk` is whether the retried import after an
install succeeds; `clientCtor = some msg` means `boto3.client(...)`
raises an exception rendered as `msg`. -/
structure Env where
  boto3Installed : Bool
  installSucceeds : Bool
  reimportOk : Bool
  clientCtor : Option String
  createResult : CreateResult
  ttlResult : TTLResult
deriving DecidableEq, Repr

/-- The argument record of the single `create_table` call in the script. -/
def createRequest : CreateTableRequest :=
  { tableName := "rag-document-locks"
    keySchema := [{ attributeName := "doc_id", keyType := "HASH" }]
    attributeDefinitions := [{ attributeName := "doc_id", attributeType := "S" }]
    billingMode := "PAY_PER_REQUEST" }

/-- The argument record of the single `update_time_to_live` call. -/
def ttlRequest : UpdateTTLRequest :=
  { tableName := "rag-document-locks"
    timeToLiveSpecification := { enabled := true, attributeName := "expires_at" } }

/-- Printed when the initial import fails. -/
def depMissingMsg : String := "❌ boto3 not installed. Installing..."

/-- Models the `CalledProcessError` raised by `subprocess.check_call`
when the pip install fails; it is not caught anywhere in the script. -/
def pipInstallFailMsg : String := "CalledProcessError: pip install boto3"

/-- Models the `ImportError` raised by the retried import when it still
fails after the install; it is not caught anywhere in the script. -/
def reimportFailMsg : String := "ImportError: no module named boto3"

/-- Printed before the try block. -/
def creatingMsg : String := "🔄 Creating DynamoDB table: rag-document-locks"

/-- Printed before the `update_time_to_live` call. -/
def enablingTTLMsg : String := "\n🔄 Enabling TTL on expires_at attribute..."

/-- The copy-pasteable verification command printed on success
(abbreviated from the source literal). -/
def verifyHint : String := "  python -c \"import boto3; ... .list_tables()\""

/-- The already-exists warning printed on `ResourceInUseException`. -/
def alreadyExistsMsg : String := "⚠️  Table already exists!"

/-- The copy-pasteable manual-deletion command printed on
`ResourceInUseException` (abbreviated from the source literal); the
script only prints it and never executes a deletion itself. -/
def deleteHint : String :=
  "  python -c \"import boto3; ... .delete_table(TableName=rag-document-locks)\""

/-- Models the string rendering of a botocore `ClientError` used by the
f-string in `print(f"❌ Error: \x7be\x7d")` (operation name elided). -/
def renderClientError (code msg : String) : String :=
  "An error occurred (" ++ code ++ "): " ++ msg

/-- The lines printed by the `except ClientError as e:` handler: the
already-exists warning plus the manual-deletion hint when
`e.response[Error][Code] == "ResourceInUseException"`, otherwise the
single error line. -/
def clientErrorActs (code msg : String) : List Act :=
  if code = "ResourceInUseException" then
    [Act.print alreadyExistsMsg,
     Act.print "To delete and recreate:",
     Act.print deleteHint]
  else
    [Act.print ("❌ Error: " ++ renderClientError code msg)]

/-- The process status produced by the `except ClientError` handler:
normal termination on `ResourceInUseException`, `sys.exit(1)`
otherwise. -/
def clientErrorExit (code : String) : ExitStatus :=
  if code = "ResourceInUseException" then ExitStatus.code 0
  else ExitStatus.code 1

/-- The `except ClientError as e:` handler at the end of the try block.
`acc` is the list of actions already performed inside the try block
before the exception was raised. -/
def clientErrorHandler (acc : List Act) (code msg : String) :
    List Act × ExitStatus :=
  (acc ++ clientErrorActs code msg, clientErrorExit code)

/-- The `except Exception as e:` catch-all handler. -/
def unexpectedHandler (acc : List Act) (msg : String) :
    List Act × ExitStatus :=
  (acc ++ [Act.print ("❌ Unexpected error: " ++ msg)], ExitStatus.code 1)

/-- The `print("🔄 Creating ...")` line and the try/except region:
issue `create_table`; on success print the description, issue
`update_time_to_live`, and on its success print the closing messages
and terminate normally; a `ClientError` raised by either call reaches
`clientErrorHandler`, and any other exception reaches
`unexpectedHandler`. -/
def scriptAttempt (cres : CreateResult) (tres : TTLResult) :
    List Act × ExitStatus :=
  let pre := [Act.print creatingMsg, Act.createTable createRequest]
  match cres with
  | CreateResult.ok d =>
    let mid := pre ++
      [Act.print "✅ Table created successfully!",
       Act.print ("   Table ARN: " ++ d.tableArn),
       Act.print ("   Status: " ++ d.tableStatus),
       Act.print enablingTTLMsg,
       Act.updateTTL ttlRequest]
    match tres with
    | TTLResult.ok =>
      (mid ++ [Act.print "✅ TTL enabled successfully!",
               Act.print "\n✨ DynamoDB Local is ready!",
               Act.print "\nTo verify:",
               Act.print verifyHint],
       ExitStatus.code 0)
    | TTLResult.clientError code msg => clientErrorHandler mid code msg
    | TTLResult.otherError msg => unexpectedHandler mid msg
  | CreateResult.clientError code msg => clientErrorHandler pre code msg
  | CreateResult.otherError msg => unexpectedHandler pre msg

/-- The guarded import at the top of the script: try `import boto3`; on
`ImportError` print a notice, run pip install as a subprocess (whose
failure propagates uncaught), and retry the import once (whose failure
also propagates uncaught).  Returns the actions performed and `some
msg` when an uncaught exception aborts the run here. -/
def depStep (env : Env) : List Act × Option String :=
  if env.boto3Installed then
    ([Act.importAttempt], none)
  else if env.installSucceeds = false then
    ([Act.importAttempt, Act.print depMissingMsg, Act.pipInstall],
     some pipInstallFailMsg)
  else if env.reimportOk then
    ([Act.importAttempt, Act.print depMissingMsg, Act.pipInstall,
      Act.importAttempt], none)
  else
    ([Act.importAttempt, Act.print depMissingMsg, Act.pipInstall,
      Act.importAttempt],
     some reimportFailMsg)

/-- One full run of the script: the guarded import, then the
module-level `boto3.client(...)` construction (outside the try/except
region, so its exception is uncaught), then the try/except region. -/
def run (env : Env) : List Act × ExitStatus :=
  let dep := depStep env
  match dep.2 with
  | some m => (dep.1, ExitStatus.uncaught m)
  | none =>
    match env.clientCtor with
    | some m => (dep.1 ++ [Act.clientConstruct], ExitStatus.uncaught m)
    | none =>
      let s := scriptAttempt env.createResult env.ttlResult
      (dep.1 ++ Act.clientConstruct :: s.1, s.2)

/-- The dependency step completes without an uncaught exception. -/
def depOk (env : Env) : Bool :=
  env.boto3Installed || (env.installSucceeds && env.reimportOk)

/-- Recognizes a `createTable` action. -/
def isCreate : Act → Bool
  | Act.createTable _ => true
  | _ => false

/-- Recognizes an `updateTTL` action. -/
def isTTL : Act → Bool
  | Act.updateTTL _ => true
  | _ => false

/-- Recognizes a `deleteTable` action. -/
def isDelete : Act → Bool
  | Act.deleteTable _ => true
  | _ => false

/-- Recognizes a `pipInstall` action. -/
def isPip : Act → Bool
  | Act.pipInstall => true
  | _ => false

/-- Recognizes an `importAttempt` action. -/
def isImport : Act → Bool
  | Act.importAttempt => true
  | _ => false

/-- State of the table in the local DynamoDB instance the script talks
to: whether the table `rag-document-locks` exists and whether TTL is
enabled on it. -/
structure DBState where
  tableExists : Bool
  ttlEnabled : Bool
deriving DecidableEq, Repr

/-- Modelled from the spec: the healthy local DynamoDB endpoint the
script is pointed at (the service itself is not part of this
repository).  Running against state `db` with boto3 already installed,
the script observes `ResourceInUseException` from `create_table` when
the table already exists, a successful creation otherwise, and a
successful `update_time_to_live`. -/
def envOf (db : DBState) : Env :=
  { boto3Installed := true
    installSucceeds := true
    reimportOk := true
    clientCtor := none
    createResult :=
      if db.tableExists then
        CreateResult.clientError "ResourceInUseException"
          "Cannot create preexisting table"
      else
        CreateResult.ok { tableArn := "arn:aws:dynamodb:ddblocal:000000000000:table/rag-document-locks"
                          tableStatus := "ACTIVE" }
    ttlResult := TTLResult.ok }

/-- Modelled from the spec: the database state after one run of the
script against a healthy local endpoint in state `db`.  A successful
`create_table` makes the table exist and the subsequent
`update_time_to_live` marks TTL enabled; a run that only observes
`ResourceInUseException` changes nothing. -/
def dbAfter (db : DBState) : DBState :=
  if db.tableExists then db
  else { tableExists := true, ttlEnabled := true }

/-- Every action the `except ClientError` handler performs is one of
two concrete lists of print lines. -/
lemma clientErrorActs_cases (code msg : String) :
    clientErrorActs code msg =
      [Act.print alreadyExistsMsg,
       Act.print "To delete and recreate:",
       Act.print deleteHint] ∨
    clientErrorActs code msg =
      [Act.print ("❌ Error: " ++ renderClientError code msg)] := by
  unfold clientErrorActs
  split
  · exact Or.inl rfl
  · exact Or.inr rfl

/-- The `except ClientError` handler never issues a TTL request. -/
lemma updateTTL_not_mem_clientErrorActs (q : UpdateTTLRequest)
    (code msg : String) : Act.updateTTL q ∉ clientErrorActs code msg := by
  rcases clientErrorActs_cases code msg with h | h <;> rw [h] <;> simp

/-- The `except ClientError` handler never issues a create request. -/
lemma createTable_not_mem_clientErrorActs (q : CreateTableRequest)
    (code msg : String) : Act.createTable q ∉ clientErrorActs code msg := by
  rcases clientErrorActs_cases code msg with h | h <;> rw [h] <;> simp

/-- The `except ClientError` handler never issues a delete request. -/
lemma deleteTable_not_mem_clientErrorActs (n code msg : String) :
    Act.deleteTable n ∉ clientErrorActs code msg := by
  rcases clientErrorActs_cases code msg with h | h <;> rw [h] <;> simp

/-- The `except ClientError` handler only prints. -/
lemma filter_clientErrorActs (p : Act → Bool)
    (hp : ∀ s, p (Act.print s) = false) (code msg : String) :
    (clientErrorActs code msg).filter p = [] := by
  rcases clientErrorActs_cases code msg with h | h <;> rw [h] <;>
    simp [List.filter, hp]

/-- A dependency step that completes splits the environments into the
two shapes of its action prefix. -/
lemma depOk_elim (env : Env) (h : depOk env = true) :
    env.boto3Installed = true ∨
    (env.boto3Installed = false ∧ env.installSucceeds = true ∧
     env.reimportOk = true) := by
  rcases env with ⟨bi, is, ri, cc, cr, tr⟩
  cases bi
  · simp [depOk] at h
    exact Or.inr ⟨rfl, h.1, h.2⟩
  · exact Or.inl rfl

/-- Claim C1: in a run where the table does not already exist and all
service calls succeed (create returns a description, TTL update
returns, the dependency step and the client construction do not fail),
the script issues a create-table request for `rag-document-locks` with
a single HASH key on the string attribute `doc_id` and PAY_PER_REQUEST
billing, later issues a TTL-enable request for attribute `expires_at`
with Enabled = true on the same table, and the process exits with
status 0. -/
theorem create_then_ttl_success (env : Env) (d : TableDescription)
    (hdep : depOk env = true) (hctor : env.clientCtor = none)
    (hc : env.createResult = CreateResult.ok d)
    (ht : env.ttlResult = TTLResult.ok) :
    createRequest =
      { tableName := "rag-document-locks"
        keySchema := [{ attributeName := "doc_id", keyType := "HASH" }]
        attributeDefinitions := [{ attributeName := "doc_id", attributeType := "S" }]
        billingMode := "PAY_PER_REQUEST" } ∧
    ttlRequest =
      { tableName := "rag-document-locks"
        timeToLiveSpecification := { enabled := true, attributeName := "expires_at" } } ∧
    (∃ l1 l2 l3, (run env).1 =
      l1 ++ Act.createTable createRequest :: l2 ++
        Act.updateTTL ttlRequest :: l3) ∧
    (run env).2 = ExitStatus.code 0 := by
  rcases env with ⟨bi, is, ri, cc, cr, tr⟩
  cases hctor
  cases hc
  cases ht
  refine ⟨rfl, rfl, ?_, ?_⟩
  · rcases depOk_elim _ hdep with h | ⟨h1, h2, h3⟩
    · cases h
      exact ⟨[Act.importAttempt, Act.clientConstruct, Act.print creatingMsg],
        [Act.print "✅ Table created successfully!",
         Act.print ("   Table ARN: " ++ d.tableArn),
         Act.print ("   Status: " ++ d.tableStatus),
         Act.print enablingTTLMsg],
        [Act.print "✅ TTL enabled successfully!",
         Act.print "\n✨ DynamoDB Local is ready!",
         Act.print "\nTo verify:",
         Act.print verifyHint], rfl⟩
    · cases h1; cases h2; cases h3
      exact ⟨[Act.importAttempt, Act.print depMissingMsg, Act.pipInstall,
         Act.importAttempt, Act.clientConstruct, Act.print creatingMsg],
        [Act.print "✅ Table created successfully!",
         Act.print ("   Table ARN: " ++ d.tableArn),
         Act.print ("   Status: " ++ d.tableStatus),
         Act.print enablingTTLMsg],
        [Act.print "✅ TTL enabled successfully!",
         Act.print "\n✨ DynamoDB Local is ready!",
         Act.print "\nTo verify:",
         Act.print verifyHint], rfl⟩
  · rcases depOk_elim _ hdep with h | ⟨h1, h2, h3⟩
    · cases h; rfl
    · cases h1; cases h2; cases h3; rfl

/-- A concrete environment taking the normal success path. -/
def c1Env : Env :=
  { boto3Installed := true, installSucceeds := true, reimportOk := true
    clientCtor := none
    createResult := CreateResult.ok { tableArn := "arn-local", tableStatus := "ACTIVE" }
    ttlResult := TTLResult.ok }

/-- Witness for `create_then_ttl_success` at `c1Env`. -/
theorem create_then_ttl_success_witness :
    (depOk c1Env = true ∧ c1Env.clientCtor = none ∧
     c1Env.createResult = CreateResult.ok { tableArn := "arn-local", tableStatus := "ACTIVE" } ∧
     c1Env.ttlResult = TTLResult.ok) ∧
    ((∃ l1 l2 l3, (run c1Env).1 =
      l1 ++ Act.createTable createRequest :: l2 ++
        Act.updateTTL ttlRequest :: l3) ∧
     (run c1Env).2 = ExitStatus.code 0) :=
  ⟨⟨rfl, rfl, rfl, rfl⟩,
   (create_then_ttl_success c1Env
     { tableArn := "arn-local", tableStatus := "ACTIVE" }
     rfl rfl rfl rfl).2.2⟩

/-- Claim C2: when `create_table` fails with a `ClientError` whose code
is `ResourceInUseException`, the script prints the already-exists
warning and the manual-deletion hint, issues exactly one create-table
request and no TTL request, and the process exits with status 0. -/
theorem already_exists_branch (env : Env) (msg : String)
    (hdep : depOk env = true) (hctor : env.clientCtor = none)
    (hc : env.createResult =
      CreateResult.clientError "ResourceInUseException" msg) :
    Act.print alreadyExistsMsg ∈ (run env).1 ∧
    Act.print deleteHint ∈ (run env).1 ∧
    ((run env).1.filter isCreate).length = 1 ∧
    (∀ q, Act.updateTTL q ∉ (run env).1) ∧
    (run env).2 = ExitStatus.code 0 := by
  rcases env with ⟨bi, is, ri, cc, cr, tr⟩
  cases hctor
  cases hc
  rcases depOk_elim _ hdep with h | ⟨h1, h2, h3⟩
  · cases h
    refine ⟨?_, ?_, ?_, fun q => ?_, ?_⟩ <;>
      simp [run, depStep, scriptAttempt, clientErrorHandler,
            clientErrorActs, clientErrorExit, isCreate]
  · cases h1; cases h2; cases h3
    refine ⟨?_, ?_, ?_, fun q => ?_, ?_⟩ <;>
      simp [run, depStep, scriptAttempt, clientErrorHandler,
            clientErrorActs, clientErrorExit, isCreate]

/-- A concrete environment where the table already exists. -/
def c2Env : Env :=
  { boto3Installed := true, installSucceeds := true, reimportOk := true
    clientCtor := none
    createResult := CreateResult.clientError "ResourceInUseException"
      "Cannot create preexisting table"
    ttlResult := TTLResult.ok }

/-- Witness for `already_exists_branch` at `c2Env`. -/
theorem already_exists_branch_witness :
    (depOk c2Env = true ∧ c2Env.clientCtor = none ∧
     c2Env.createResult = CreateResult.clientError "ResourceInUseException"
       "Cannot create preexisting table") ∧
    (Act.print alreadyExistsMsg ∈ (run c2Env).1 ∧
     Act.print deleteHint ∈ (run c2Env).1 ∧
     ((run c2Env).1.filter isCreate).length = 1 ∧
     (∀ q, Act.updateTTL q ∉ (run c2Env).1) ∧
     (run c2Env).2 = ExitStatus.code 0) :=
  ⟨⟨rfl, rfl, rfl⟩,
   already_exists_branch c2Env "Cannot create preexisting table" rfl rfl rfl⟩

/-- Claim C3: when `create_table` fails with a `ClientError` whose code
is anything other than `ResourceInUseException`, the script prints the
error line and the process exits with status 1. -/
theorem other_client_error_branch (env : Env) (code msg : String)
    (hdep : depOk env = true) (hctor : env.clientCtor = none)
    (hc : env.createResult = CreateResult.clientError code msg)
    (hne : code ≠ "ResourceInUseException") :
    Act.print ("❌ Error: " ++ renderClientError code msg) ∈ (run env).1 ∧
    (run env).2 = ExitStatus.code 1 := by
  rcases env with ⟨bi, is, ri, cc, cr, tr⟩
  cases hctor
  cases hc
  rcases depOk_elim _ hdep with h | ⟨h1, h2, h3⟩
  · cases h
    constructor <;>
      simp [run, depStep, scriptAttempt, clientErrorHandler,
            clientErrorActs, clientErrorExit, hne]
  · cases h1; cases h2; cases h3
    constructor <;>
      simp [run, depStep, scriptAttempt, clientErrorHandler,
            clientErrorActs, clientErrorExit, hne]

/-- A concrete environment with a non-already-exists service error. -/
def c3Env : Env :=
  { boto3Installed := true, installSucceeds := true, reimportOk := true
    clientCtor := none
    createResult := CreateResult.clientError "ValidationException" "bad request"
    ttlResult := TTLResult.ok }

/-- Witness for `other_client_error_branch` at `c3Env`. -/
theorem other_client_error_branch_witness :
    (depOk c3Env = true ∧ c3Env.clientCtor = none ∧
     c3Env.createResult =
       CreateResult.clientError "ValidationException" "bad request" ∧
     "ValidationException" ≠ "ResourceInUseException") ∧
    (Act.print ("❌ Error: " ++
        renderClientError "ValidationException" "bad request") ∈ (run c3Env).1 ∧
     (run c3Env).2 = ExitStatus.code 1) :=
  ⟨⟨rfl, rfl, rfl, by decide⟩,
   other_client_error_branch c3Env "ValidationException" "bad request"
     rfl rfl rfl (by decide)⟩

/-- Claim C4: when a non-`ClientError` exception is raised by the
create step or by the TTL step, the catch-all handler prints the
underlying failure text behind the generic prefix and the process
exits with status 1. -/
theorem unexpected_error_branch (env : Env) (msg : String)
    (hdep : depOk env = true) (hctor : env.clientCtor = none)
    (h : env.createResult = CreateResult.otherError msg ∨
         ((∃ d, env.createResult = CreateResult.ok d) ∧
          env.ttlResult = TTLResult.otherError msg)) :
    Act.print ("❌ Unexpected error: " ++ msg) ∈ (run env).1 ∧
    (run env).2 = ExitStatus.code 1 := by
  rcases env with ⟨bi, is, ri, cc, cr, tr⟩
  cases hctor
  rcases h with hc | ⟨⟨d, hc⟩, ht⟩ <;> cases hc <;>
    [skip; cases ht] <;>
    rcases depOk_elim _ hdep with h | ⟨h1, h2, h3⟩ <;>
    [cases h; (cases h1; cases h2; cases h3);
     cases h; (cases h1; cases h2; cases h3)] <;>
    constructor <;>
    simp [run, depStep, scriptAttempt, unexpectedHandler]

/-- A concrete environment where the endpoint is unreachable. -/
def c4Env : Env :=
  { boto3Installed := true, installSucceeds := true, reimportOk := true
    clientCtor := none
    createResult := CreateResult.otherError
      "Could not connect to the endpoint URL: http://localhost:8000/"
    ttlResult := TTLResult.ok }

/-- Witness for `unexpected_error_branch` at `c4Env`. -/
theorem unexpected_error_branch_witness :
    (depOk c4Env = true ∧ c4Env.clientCtor = none ∧
     c4Env.createResult = CreateResult.otherError
       "Could not connect to the endpoint URL: http://localhost:8000/") ∧
    (Act.print ("❌ Unexpected error: " ++
        "Could not connect to the endpoint URL: http://localhost:8000/") ∈
      (run c4Env).1 ∧
     (run c4Env).2 = ExitStatus.code 1) :=
  ⟨⟨rfl, rfl, rfl⟩,
   unexpected_error_branch c4Env
     "Could not connect to the endpoint URL: http://localhost:8000/"
     rfl rfl (Or.inl rfl)⟩

/-- A run where table creation succeeds but the TTL call fails with a
`ClientError` whose code is `ResourceInUseException`. -/
def c5Env : Env :=
  { boto3Installed := true, installSucceeds := true, reimportOk := true
    clientCtor := none
    createResult := CreateResult.ok { tableArn := "arn-local", tableStatus := "ACTIVE" }
    ttlResult := TTLResult.clientError "ResourceInUseException"
      "Time to live has been modified multiple times within a fixed interval" }

/-- Claim C5 counterexample: a TTL-step failure does NOT always produce
the generic error path.  When the TTL call fails with a `ClientError`
whose code is `ResourceInUseException`, the run exits with status 0
(printing the already-exists warning), not status 1. -/
theorem ttl_failure_not_always_exit_one :
    (run c5Env).2 = ExitStatus.code 0 ∧
    (run c5Env).2 ≠ ExitStatus.code 1 ∧
    Act.print alreadyExistsMsg ∈ (run c5Env).1 := by
  decide

/-- Claim C5 (amended): a TTL-step failure is caught by the same
handlers as table creation; a `ClientError` whose code is not
`ResourceInUseException`, and any non-`ClientError` exception, produce
the generic error path (print plus exit 1), while a `ClientError` whose
code is `ResourceInUseException` takes the already-exists branch and
the process exits with status 0. -/
theorem ttl_failure_branches (env : Env) (d : TableDescription)
    (hdep : depOk env = true) (hctor : env.clientCtor = none)
    (hc : env.createResult = CreateResult.ok d) :
    (∀ code msg, env.ttlResult = TTLResult.clientError code msg →
      code ≠ "ResourceInUseException" →
      Act.print ("❌ Error: " ++ renderClientError code msg) ∈ (run env).1 ∧
      (run env).2 = ExitStatus.code 1) ∧
    (∀ msg, env.ttlResult =
        TTLResult.clientError "ResourceInUseException" msg →
      Act.print alreadyExistsMsg ∈ (run env).1 ∧
      (run env).2 = ExitStatus.code 0) ∧
    (∀ msg, env.ttlResult = TTLResult.otherError msg →
      Act.print ("❌ Unexpected error: " ++ msg) ∈ (run env).1 ∧
      (run env).2 = ExitStatus.code 1) := by
  rcases env with ⟨bi, is, ri, cc, cr, tr⟩
  cases hctor
  cases hc
  rcases depOk_elim _ hdep with h | ⟨h1, h2, h3⟩
  · cases h
    refine ⟨fun code msg ht hne => ?_, fun msg ht => ?_, fun msg ht => ?_⟩
    · cases ht
      constructor <;>
        simp [run, depStep, scriptAttempt, clientErrorHandler,
              clientErrorActs, clientErrorExit, hne]
    · cases ht
      constructor <;>
        simp [run, depStep, scriptAttempt, clientErrorHandler,
              clientErrorActs, clientErrorExit]
    · cases ht
      constructor <;>
        simp [run, depStep, scriptAttempt, unexpectedHandler]
  · cases h1; cases h2; cases h3
    refine ⟨fun code msg ht hne => ?_, fun msg ht => ?_, fun msg ht => ?_⟩
    · cases ht
      constructor <;>
        simp [run, depStep, scriptAttempt, clientErrorHandler,
              clientErrorActs, clientErrorExit, hne]
    · cases ht
      constructor <;>
        simp [run, depStep, scriptAttempt, clientErrorHandler,
              clientErrorActs, clientErrorExit]
    · cases ht
      constructor <;>
        simp [run, depStep, scriptAttempt, unexpectedHandler]

/-- Witness for `ttl_failure_branches` at an environment whose TTL call
fails with a `ValidationException`. -/
def c5wEnv : Env :=
  { boto3Installed := true, installSucceeds := true, reimportOk := true
    clientCtor := none
    createResult := CreateResult.ok { tableArn := "arn-local", tableStatus := "ACTIVE" }
    ttlResult := TTLResult.clientError "ValidationException" "TTL rejected" }

/-- Witness for `ttl_failure_branches` at `c5wEnv`. -/
theorem ttl_failure_branches_witness :
    (depOk c5wEnv = true ∧ c5wEnv.clientCtor = none ∧
     c5wEnv.createResult =
       CreateResult.ok { tableArn := "arn-local", tableStatus := "ACTIVE" } ∧
     c5wEnv.ttlResult = TTLResult.clientError "ValidationException" "TTL rejected" ∧
     "ValidationException" ≠ "ResourceInUseException") ∧
    (Act.print ("❌ Error: " ++
        renderClientError "ValidationException" "TTL rejected") ∈ (run c5wEnv).1 ∧
     (run c5wEnv).2 = ExitStatus.code 1) :=
  ⟨⟨rfl, rfl, rfl, rfl, by decide⟩,
   (ttl_failure_branches c5wEnv
       { tableArn := "arn-local", tableStatus := "ACTIVE" }
       rfl rfl rfl).1
     "ValidationException" "TTL rejected" rfl (by decide)⟩

/-- Claim C6: when boto3 is absent, the run performs exactly one pip
install; when the install succeeds it is followed by exactly one
retried import (two import attempts in total); when the install itself
fails, the run is exactly the three dependency actions and the process
terminates through the runtime's default unhandled-error behavior
(`uncaught`), never reaching the script's error handlers. -/
theorem dependency_install_once (env : Env)
    (h : env.boto3Installed = false) :
    ((run env).1.filter isPip).length = 1 ∧
    (env.installSucceeds = true →
      ((run env).1.filter isImport).length = 2) ∧
    (env.installSucceeds = false →
      run env = ([Act.importAttempt, Act.print depMissingMsg, Act.pipInstall],
                 ExitStatus.uncaught pipInstallFailMsg)) := by
  rcases env with ⟨bi, is, ri, cc, cr, tr⟩
  cases h
  dsimp only
  cases is
  · exact ⟨rfl, fun hs => Bool.noConfusion hs, fun _ => rfl⟩
  · cases ri
    · exact ⟨rfl, fun _ => rfl, fun hf => Bool.noConfusion hf⟩
    · cases cc
      · refine ⟨?_, fun _ => ?_, fun hf => Bool.noConfusion hf⟩ <;>
          cases cr <;> cases tr <;>
          simp [run, depStep, scriptAttempt, clientErrorHandler,
                unexpectedHandler, isPip, isImport,
                filter_clientErrorActs]
      · exact ⟨rfl, fun _ => rfl, fun hf => Bool.noConfusion hf⟩

/-- A concrete environment where boto3 is absent and pip fails. -/
def c6Env : Env :=
  { boto3Installed := false, installSucceeds := false, reimportOk := true
    clientCtor := none
    createResult := CreateResult.ok { tableArn := "arn-local", tableStatus := "ACTIVE" }
    ttlResult := TTLResult.ok }

/-- Witness for `dependency_install_once` at `c6Env`. -/
theorem dependency_install_once_witness :
    (c6Env.boto3Installed = false ∧ c6Env.installSucceeds = false) ∧
    (((run c6Env).1.filter isPip).length = 1 ∧
     run c6Env = ([Act.importAttempt, Act.print depMissingMsg, Act.pipInstall],
                  ExitStatus.uncaught pipInstallFailMsg)) :=
  ⟨⟨rfl, rfl⟩,
   ⟨(dependency_install_once c6Env rfl).1,
    (dependency_install_once c6Env rfl).2.2 rfl⟩⟩

/-- The initial database state for the idempotence witness. -/
def c7Db : DBState := { tableExists := false, ttlEnabled := false }

/-- Claim C7: starting from a state where the table does not exist, the
first run against a healthy local endpoint exits 0 and leaves the
table created with TTL enabled; the second run prints the
already-exists warning, issues no TTL request, issues no delete
request, leaves the database state unchanged, and also exits 0. -/
theorem second_run_no_mutation (db : DBState)
    (h : db.tableExists = false) :
    (run (envOf db)).2 = ExitStatus.code 0 ∧
    (dbAfter db).tableExists = true ∧
    (dbAfter db).ttlEnabled = true ∧
    (run (envOf (dbAfter db))).2 = ExitStatus.code 0 ∧
    Act.print alreadyExistsMsg ∈ (run (envOf (dbAfter db))).1 ∧
    dbAfter (dbAfter db) = dbAfter db ∧
    (∀ q, Act.updateTTL q ∉ (run (envOf (dbAfter db))).1) ∧
    (∀ n, Act.deleteTable n ∉ (run (envOf (dbAfter db))).1) := by
  rcases db with ⟨te, tt⟩
  cases h
  cases tt <;>
    refine ⟨rfl, rfl, rfl, rfl, by decide, rfl, fun q => ?_, fun n => ?_⟩ <;>
    simp [run, envOf, dbAfter, depStep, scriptAttempt, clientErrorHandler,
          clientErrorActs, clientErrorExit]

/-- Witness for `second_run_no_mutation` at `c7Db`. -/
theorem second_run_no_mutation_witness :
    c7Db.tableExists = false ∧
    ((run (envOf c7Db)).2 = ExitStatus.code 0 ∧
     (dbAfter c7Db).tableExists = true ∧
     (dbAfter c7Db).ttlEnabled = true ∧
     (run (envOf (dbAfter c7Db))).2 = ExitStatus.code 0 ∧
     Act.print alreadyExistsMsg ∈ (run (envOf (dbAfter c7Db))).1 ∧
     dbAfter (dbAfter c7Db) = dbAfter c7Db ∧
     (∀ q, Act.updateTTL q ∉ (run (envOf (dbAfter c7Db))).1) ∧
     (∀ n, Act.deleteTable n ∉ (run (envOf (dbAfter c7Db))).1)) :=
  ⟨rfl, second_run_no_mutation c7Db rfl⟩

/-- Claim C8: a TTL-enable request is only ever issued in a run whose
`create_table` call returned successfully, strictly after the
create-table request (and after the dependency check), and at most
once; on the already-exists and error branches no TTL request appears
at all. -/
theorem ttl_only_after_successful_create (env : Env)
    (r : UpdateTTLRequest) (h : Act.updateTTL r ∈ (run env).1) :
    (∃ d, env.createResult = CreateResult.ok d) ∧
    ∃ l1 l2, (run env).1 = l1 ++ Act.updateTTL r :: l2 ∧
      Act.importAttempt ∈ l1 ∧
      Act.createTable createRequest ∈ l1 ∧
      (∀ q, Act.updateTTL q ∉ l1) ∧
      (∀ q, Act.updateTTL q ∉ l2) := by
  rcases env with ⟨bi, is, ri, cc, cr, tr⟩
  cases cr with
  | clientError c m =>
    exfalso
    cases bi <;> cases is <;> cases ri <;> cases cc <;>
      simp [run, depStep, scriptAttempt, clientErrorHandler,
            unexpectedHandler, updateTTL_not_mem_clientErrorActs] at h
  | otherError m =>
    exfalso
    cases bi <;> cases is <;> cases ri <;> cases cc <;>
      simp [run, depStep, scriptAttempt, clientErrorHandler,
            unexpectedHandler] at h
  | ok d =>
    cases cc with
    | some m =>
      exfalso
      cases bi <;> cases is <;> cases ri <;>
        simp [run, depStep] at h
    | none =>
      cases bi with
      | true =>
        cases tr with
        | ok =>
          simp [run, depStep, scriptAttempt] at h
          cases h
          exact ⟨⟨d, rfl⟩,
            [Act.importAttempt, Act.clientConstruct, Act.print creatingMsg,
             Act.createTable createRequest,
             Act.print "✅ Table created successfully!",
             Act.print ("   Table ARN: " ++ d.tableArn),
             Act.print ("   Status: " ++ d.tableStatus),
             Act.print enablingTTLMsg],
            [Act.print "✅ TTL enabled successfully!",
             Act.print "\n✨ DynamoDB Local is ready!",
             Act.print "\nTo verify:",
             Act.print verifyHint],
            rfl, by simp, by simp, fun q => by simp, fun q => by simp⟩
        | clientError c m =>
          simp [run, depStep, scriptAttempt, clientErrorHandler,
                updateTTL_not_mem_clientErrorActs] at h
          cases h
          exact ⟨⟨d, rfl⟩,
            [Act.importAttempt, Act.clientConstruct, Act.print creatingMsg,
             Act.createTable createRequest,
             Act.print "✅ Table created successfully!",
             Act.print ("   Table ARN: " ++ d.tableArn),
             Act.print ("   Status: " ++ d.tableStatus),
             Act.print enablingTTLMsg],
            clientErrorActs c m,
            rfl, by simp, by simp, fun q => by simp,
            fun q => updateTTL_not_mem_clientErrorActs q c m⟩
        | otherError m =>
          simp [run, depStep, scriptAttempt, unexpectedHandler] at h
          cases h
          exact ⟨⟨d, rfl⟩,
            [Act.importAttempt, Act.clientConstruct, Act.print creatingMsg,
             Act.createTable createRequest,
             Act.print "✅ Table created successfully!",
             Act.print ("   Table ARN: " ++ d.tableArn),
             Act.print ("   Status: " ++ d.tableStatus),
             Act.print enablingTTLMsg],
            [Act.print ("❌ Unexpected error: " ++ m)],
            rfl, by simp, by simp, fun q => by simp, fun q => by simp⟩
      | false =>
        cases is with
        | false =>
          exfalso
          cases ri <;> simp [run, depStep] at h
        | true =>
          cases ri with
          | false =>
            exfalso
            simp [run, depStep] at h
          | true =>
            cases tr with
            | ok =>
              simp [run, depStep, scriptAttempt] at h
              cases h
              exact ⟨⟨d, rfl⟩,
                [Act.importAttempt, Act.print depMissingMsg, Act.pipInstall,
                 Act.importAttempt, Act.clientConstruct, Act.print creatingMsg,
                 Act.createTable createRequest,
                 Act.print "✅ Table created successfully!",
                 Act.print ("   Table ARN: " ++ d.tableArn),
                 Act.print ("   Status: " ++ d.tableStatus),
                 Act.print enablingTTLMsg],
                [Act.print "✅ TTL enabled successfully!",
                 Act.print "\n✨ DynamoDB Local is ready!",
                 Act.print "\nTo verify:",
                 Act.print verifyHint],
                rfl, by simp, by simp, fun q => by simp, fun q => by simp⟩
            | clientError c m =>
              simp [run, depStep, scriptAttempt, clientErrorHandler,
                    updateTTL_not_mem_clientErrorActs] at h
              cases h
              exact ⟨⟨d, rfl⟩,
                [Act.importAttempt, Act.print depMissingMsg, Act.pipInstall,
                 Act.importAttempt, Act.clientConstruct, Act.print creatingMsg,
                 Act.createTable createRequest,
                 Act.print "✅ Table created successfully!",
                 Act.print ("   Table ARN: " ++ d.tableArn),
                 Act.print ("   Status: " ++ d.tableStatus),
                 Act.print enablingTTLMsg],
                clientErrorActs c m,
                rfl, by simp, by simp, fun q => by simp,
                fun q => updateTTL_not_mem_clientErrorActs q c m⟩
            | otherError m =>
              simp [run, depStep, scriptAttempt, unexpectedHandler] at h
              cases h
              exact ⟨⟨d, rfl⟩,
                [Act.importAttempt, Act.print depMissingMsg, Act.pipInstall,
                 Act.importAttempt, Act.clientConstruct, Act.print creatingMsg,
                 Act.createTable createRequest,
                 Act.print "✅ Table created successfully!",
                 Act.print ("   Table ARN: " ++ d.tableArn),
                 Act.print ("   Status: " ++ d.tableStatus),
                 Act.print enablingTTLMsg],
                [Act.print ("❌ Unexpected error: " ++ m)],
                rfl, by simp, by simp, fun q => by simp, fun q => by simp⟩

/-- A concrete environment for the C8 witness: the success path. -/
def c8Env : Env :=
  { boto3Installed := true, installSucceeds := true, reimportOk := true
    clientCtor := none
    createResult := CreateResult.ok { tableArn := "arn-local", tableStatus := "ACTIVE" }
    ttlResult := TTLResult.ok }

/-- Witness for `ttl_only_after_successful_create` at `c8Env`. -/
theorem ttl_only_after_successful_create_witness :
    Act.updateTTL ttlRequest ∈ (run c8Env).1 ∧
    ((∃ d, c8Env.createResult = CreateResult.ok d) ∧
     ∃ l1 l2, (run c8Env).1 = l1 ++ Act.updateTTL ttlRequest :: l2 ∧
       Act.importAttempt ∈ l1 ∧
       Act.createTable createRequest ∈ l1 ∧
       (∀ q, Act.updateTTL q ∉ l1) ∧
       (∀ q, Act.updateTTL q ∉ l2)) :=
  ⟨by decide,
   ttl_only_after_successful_create c8Env ttlRequest (by decide)⟩

/-- Claim C9: on every run and every branch the script never issues a
delete-table request, and it issues at most one create-table request
and at most one TTL-enable request; deletion only ever appears as a
printed hint. -/
theorem never_deletes_frame (env : Env) :
    (∀ n, Act.deleteTable n ∉ (run env).1) ∧
    ((run env).1.filter isCreate).length ≤ 1 ∧
    ((run env).1.filter isTTL).length ≤ 1 := by
  rcases env with ⟨bi, is, ri, cc, cr, tr⟩
  refine ⟨fun n => ?_, ?_, ?_⟩ <;>
    cases bi <;> cases is <;> cases ri <;> cases cc <;> cases cr <;>
      cases tr <;>
    simp [run, depStep, scriptAttempt, clientErrorHandler,
          unexpectedHandler, isCreate, isTTL,
          deleteTable_not_mem_clientErrorActs, filter_clientErrorActs]

/-- Claim C10: when the module-level `boto3.client(...)` construction
raises (after a completed dependency step), the exception is not
caught by any of the script's handlers: the process status is the
runtime's uncaught-exception termination and never `sys.exit`, the
only line possibly printed is the dependency notice (none of the
handler error messages), and no database request is issued. -/
theorem ctor_failure_uncaught (env : Env) (msg : String)
    (hdep : depOk env = true) (hctor : env.clientCtor = some msg) :
    (run env).2 = ExitStatus.uncaught msg ∧
    (∀ n, (run env).2 ≠ ExitStatus.code n) ∧
    (∀ s, Act.print s ∈ (run env).1 → s = depMissingMsg) ∧
    (∀ q, Act.createTable q ∉ (run env).1) ∧
    (∀ q, Act.updateTTL q ∉ (run env).1) := by
  rcases env with ⟨bi, is, ri, cc, cr, tr⟩
  cases hctor
  rcases depOk_elim _ hdep with h | ⟨h1, h2, h3⟩
  · cases h
    refine ⟨rfl, fun n => ?_, fun s hs => ?_, fun q => ?_, fun q => ?_⟩
    · simp [run, depStep]
    · simp [run, depStep] at hs
    · simp [run, depStep]
    · simp [run, depStep]
  · cases h1; cases h2; cases h3
    refine ⟨rfl, fun n => ?_, fun s hs => ?_, fun q => ?_, fun q => ?_⟩
    · simp [run, depStep]
    · simp [run, depStep] at hs
      exact hs
    · simp [run, depStep]
    · simp [run, depStep]

/-- A concrete environment where the client constructor raises. -/
def c10Env : Env :=
  { boto3Installed := true, installSucceeds := true, reimportOk := true
    clientCtor := some "EndpointConnectionError"
    createResult := CreateResult.ok { tableArn := "arn-local", tableStatus := "ACTIVE" }
    ttlResult := TTLResult.ok }

/-- Witness for `ctor_failure_uncaught` at `c10Env`. -/
theorem ctor_failure_uncaught_witness :
    (depOk c10Env = true ∧
     c10Env.clientCtor = some "EndpointConnectionError") ∧
    ((run c10Env).2 = ExitStatus.uncaught "EndpointConnectionError" ∧
     (∀ n, (run c10Env).2 ≠ ExitStatus.code n) ∧
     (∀ s, Act.print s ∈ (run c10Env).1 → s = depMissingMsg) ∧
     (∀ q, Act.createTable q ∉ (run c10Env).1) ∧
     (∀ q, Act.updateTTL q ∉ (run c10Env).1)) :=
  ⟨⟨rfl, rfl⟩,
   ctor_failure_uncaught c10Env "EndpointConnectionError" rfl rfl⟩
